import Mathlib

/-!
# Verification of the arbutus footprint / points pipelines

Shallow embedding of `arbutus/project2Dpictures_arbutus.py` and
`arbutus/arbutuspictures2points.py` from the `lefolab-utils` repository.

Modelling conventions:

* Python floats are modelled as rationals (`ℚ`): the properties under study are
  algebraic identities and comparisons of the formulas the source computes.
* `datetime` values are modelled as `Int` (only their linear order is used).
* Python strings are `String`, manipulated through character-list helpers that
  mirror `str.split` (single-character separator), `str.lower`, `str.replace`,
  `str.endswith`, `os.path.basename` and the `in` substring test.  The regular
  expression `_<id>\.jpg$` with `re.IGNORECASE` used for wide/zoom pairing is
  modelled as a lower-cased suffix test (the identifiers are plain
  alphanumerics, so the pattern is literal).
* HTTP fetches, EXIF parsing, raster sampling and the coordinate transformer
  are external effects; they enter the model as explicit inputs (an optional
  response/result, or a transformer function `ℚ → ℚ → ℚ × ℚ`).
* Logging is modelled by the list of levels of the messages a call emits.
-/

namespace Arbutus

/-! ## Python string primitives (character-list level) -/

/-- Python `str.split(sep)` for a single-character separator:
always returns at least one (possibly empty) part. -/
def splitOnChar (sep : Char) : List Char → List (List Char)
  | [] => [[]]
  | c :: cs =>
    match splitOnChar sep cs with
    | [] => [[c]]
    | p :: ps => if c = sep then [] :: p :: ps else (c :: p) :: ps

/-- One step bound for `replaceAllAux`: each recursive call consumes at least
one character, so `s.length` steps of fuel always suffice. -/
def replaceAllAux (pat rep : List Char) : Nat → List Char → List Char
  | _, [] => []
  | 0, s => s
  | fuel + 1, c :: cs =>
    if pat ≠ [] ∧ pat.isPrefixOf (c :: cs) then
      rep ++ replaceAllAux pat rep fuel ((c :: cs).drop pat.length)
    else
      c :: replaceAllAux pat rep fuel cs

/-- Python `s.replace(pat, rep)`: left-to-right, non-overlapping replacement of
every occurrence (the sources only use non-empty patterns). -/
def pyReplace (s pat rep : String) : String :=
  String.mk (replaceAllAux pat.data rep.data s.data.length s.data)

/-- Python `pat in s` substring test. -/
def containsSub (pat : List Char) : List Char → Bool
  | [] => decide (pat = [])
  | c :: cs => pat.isPrefixOf (c :: cs) || containsSub pat cs

/-- Python `pat in s` on strings. -/
def pyContains (s pat : String) : Bool := containsSub pat.data s.data

/-- Python `s.lower()` (ASCII, as used by the sources). -/
def pyLower (s : String) : String := String.mk (s.data.map Char.toLower)

/-- Python `s.endswith(suffix)`. -/
def pyEndsWith (s suffix : String) : Bool := suffix.data.isSuffixOf s.data

/-- Python `s.split(sep)[-1]` for a single-character separator. -/
def pySplitLast (sep : Char) (s : String) : String :=
  String.mk ((splitOnChar sep s.data).getLastD [])

/-- Python `os.path.basename`: the part after the last `/`. -/
def basename (p : String) : String := pySplitLast '/' p

/-! ## DSM temporal matcher (`project2Dpictures_arbutus.py`, lines 175-206) -/

/-- Python `max(xs, key=lambda x: x[1])` on a non-empty list: keeps the first
element whose key is maximal (ties keep the earlier element). -/
def pyMaxByDate (x : String × Int) (xs : List (String × Int)) : String × Int :=
  xs.foldl (fun best y => if best.2 < y.2 then y else best) x

/-- `select_closest_dsm(mission_date, dsm_files)`: among the entries dated on
or before the mission date, pick the one with the most recent date; `None` when
the catalog is empty or only future-dated entries exist. -/
def select_closest_dsm (mission_date : Int) (dsm_files : List (String × Int)) :
    Option String :=
  if dsm_files.isEmpty then none
  else
    match dsm_files.filter (fun pd => pd.2 ≤ mission_date) with
    | [] => none
    | v :: vs => some (pyMaxByDate v vs).1

/-! ## GPS DMS conversion (`project2Dpictures_arbutus.py` lines 228-239,
`arbutuspictures2points.py` lines 28-45) -/

/-- The rational value of one EXIF `Ratio` component `num/den`. -/
def ratVal (v : Int × Int) : ℚ := (v.1 : ℚ) / (v.2 : ℚ)

/-- `dms_to_decimal(dms_value, ref)`: the source indexes `values[0..2]`
directly (degrees, minutes, seconds) and negates for a south/west reference
string. -/
def dms_to_decimal (v0 v1 v2 : Int × Int) (ref : String) : ℚ :=
  let degrees := ratVal v0
  let minutes := ratVal v1
  let seconds := ratVal v2
  let decimal := degrees + minutes / 60 + seconds / 3600
  if ref = "S" ∨ ref = "W" then -decimal else decimal

/-- `convert_to_decimal_degrees(value, ref)`: raises `ValueError` (modelled as
`.error`) unless the coordinate has exactly three rational components; negates
when the reference tag has a first character `S` or `W`. -/
def convert_to_decimal_degrees (values : List (Int × Int)) (refValues : List Char) :
    Except String ℚ :=
  match values with
  | [dv, mv, sv] =>
    let d := ratVal dv
    let m := ratVal mv
    let s := ratVal sv
    let decimal := d + m / 60 + s / 3600
    let neg : Bool :=
      match refValues with
      | c :: _ => c = 'S' || c = 'W'
      | [] => false
    .ok (if neg then -decimal else decimal)
  | _ =>
    .error "Malformed or incomplete EXIF data: GPS coordinate value does not contain exactly three elements"

/-! ## EXIF GPS extraction (`arbutuspictures2points.py`, lines 79-127)

The HTTP fetch and EXIF parse are external: the model receives the optional
response, already holding its status code and the parsed GPS tags (each tag
either absent or a list of rational components / reference characters). -/

structure ExifGpsTags where
  gpsLatitude : Option (List (Int × Int))
  gpsLatitudeRef : Option (List Char)
  gpsLongitude : Option (List (Int × Int))
  gpsLongitudeRef : Option (List Char)

structure HttpImageResponse where
  statusCode : Nat
  tags : ExifGpsTags

/-- `get_coordinates_from_image_url`: `(latitude, longitude)` when the fetch
succeeded with status 200, all four GPS tags are present and both coordinates
convert; `None` otherwise. -/
def get_coordinates_from_image_url (response : Option HttpImageResponse) :
    Option (ℚ × ℚ) :=
  match response with
  | none => none
  | some r =>
    if r.statusCode = 200 then
      match r.tags.gpsLatitude, r.tags.gpsLatitudeRef,
            r.tags.gpsLongitude, r.tags.gpsLongitudeRef with
      | some latV, some latR, some lonV, some lonR =>
        match convert_to_decimal_degrees latV latR,
              convert_to_decimal_degrees lonV lonR with
        | .ok la, .ok lo => some (la, lo)
        | _, _ => none
      | _, _, _, _ => none
    else none

/-! ## EXIF GPS/altitude extraction (`project2Dpictures_arbutus.py`, lines 242-300)

The whole body runs inside `try … except Exception: return None`, so a missing
reference tag (`KeyError`), a GPS value with fewer than three components
(`IndexError` inside `dms_to_decimal`) or an empty altitude/altitude-reference
value (`IndexError`) all surface as `None`.  A GPS value with more than three
components raises nothing: only its first three components are read. -/

structure ProjExifTags where
  gpsLatitude : Option (List (Int × Int))
  gpsLatitudeRef : Option String
  gpsLongitude : Option (List (Int × Int))
  gpsLongitudeRef : Option String
  gpsAltitude : Option (List (Int × Int))
  gpsAltitudeRef : Option (List Int)

structure ProjHttpResponse where
  statusCode : Nat
  tags : ProjExifTags

/-- `extract_gps_altitude_from_url`: `(latitude, longitude, altitude)` or
`None`. -/
def extract_gps_altitude_from_url (response : Option ProjHttpResponse) :
    Option (ℚ × ℚ × ℚ) :=
  match response with
  | none => none
  | some r =>
    if r.statusCode = 200 then
      match r.tags.gpsLatitude, r.tags.gpsLongitude with
      | some latV, some lonV =>
        match r.tags.gpsLatitudeRef, r.tags.gpsLongitudeRef with
        | some latRef, some lonRef =>
          match latV, lonV with
          | l0 :: l1 :: l2 :: _, n0 :: n1 :: n2 :: _ =>
            let lat := dms_to_decimal l0 l1 l2 latRef
            let lon := dms_to_decimal n0 n1 n2 lonRef
            match r.tags.gpsAltitude with
            | none => none
            | some [] => none
            | some (a0 :: _) =>
              match r.tags.gpsAltitudeRef with
              | none => some (lat, lon, ratVal a0)
              | some [] => none
              | some (ar0 :: _) =>
                some (lat, lon, if ar0 = 1 then -(ratVal a0) else ratVal a0)
          | _, _ => none
        | _, _ => none
      | _, _ => none
    else none

/-- A response whose GPS latitude has four rational components and which
carries an altitude: the footprint-script extractor accepts it. -/
def respFourComponents : ProjHttpResponse :=
  { statusCode := 200,
    tags := { gpsLatitude := some [(1, 1), (0, 1), (0, 1), (9, 1)],
              gpsLatitudeRef := some "N",
              gpsLongitude := some [(2, 1), (0, 1), (0, 1)],
              gpsLongitudeRef := some "E",
              gpsAltitude := some [(100, 1)],
              gpsAltitudeRef := none } }

/-- A response with complete three-component GPS tags but no altitude tag. -/
def respNoAltitude : ProjHttpResponse :=
  { statusCode := 200,
    tags := { gpsLatitude := some [(1, 1), (0, 1), (0, 1)],
              gpsLatitudeRef := some "N",
              gpsLongitude := some [(2, 1), (0, 1), (0, 1)],
              gpsLongitudeRef := some "E",
              gpsAltitude := none,
              gpsAltitudeRef := none } }

/-! ## Footprint geometry engine (`project2Dpictures_arbutus.py`, lines 392-649) -/

inductive LogLevel where
  | info
  | warning
  | error
deriving DecidableEq

/-- One output feature (`Footprint` record).  The three source property
dictionaries are merged: the full-image and center-crop variants carry `none`
tile indices. -/
structure Feature where
  tile_row : Option Nat
  tile_col : Option Nat
  latitude : ℚ
  longitude : ℚ
  altitude_m : ℚ
  dsm_median_m : ℚ
  flight_height_m : ℚ
  gsd_m : ℚ
  footprint_width_m : ℚ
  footprint_height_m : ℚ
  footprint_area_m2 : ℚ
  image_width_px : Nat
  image_height_px : Nat
  geometry : List (ℚ × ℚ)
deriving DecidableEq

/-- `create_footprint_polygon`: north-oriented rectangle centred on the
transformed point, ring SW → SE → NE → NW → SW.  The `Transformer` from WGS84
to the output CRS is the explicit `transform` argument. -/
def create_footprint_polygon (transform : ℚ → ℚ → ℚ × ℚ)
    (center_lon center_lat width_m height_m : ℚ) : List (ℚ × ℚ) :=
  let p := transform center_lon center_lat
  let half_width := width_m / 2
  let half_height := height_m / 2
  [(p.1 - half_width, p.2 - half_height),
   (p.1 + half_width, p.2 - half_height),
   (p.1 + half_width, p.2 + half_height),
   (p.1 - half_width, p.2 + half_height),
   (p.1 - half_width, p.2 - half_height)]

/-- The single feature built in the center-crop and full-image branches. -/
def simpleFeature (transform : ℚ → ℚ → ℚ × ℚ)
    (lat lon altitude dsm_median flight_height gsd : ℚ)
    (img_width img_height : Nat) (footprint_width footprint_height : ℚ) :
    Feature :=
  { tile_row := none
    tile_col := none
    latitude := lat
    longitude := lon
    altitude_m := altitude
    dsm_median_m := dsm_median
    flight_height_m := flight_height
    gsd_m := gsd
    footprint_width_m := footprint_width
    footprint_height_m := footprint_height
    footprint_area_m2 := footprint_width * footprint_height
    image_width_px := img_width
    image_height_px := img_height
    geometry := create_footprint_polygon transform lon lat footprint_width footprint_height }

/-- The feature built for tile `(row, col)` in the tile-crop branch. -/
def mkTileFeature (lat lon altitude dsm_median flight_height gsd : ℚ)
    (img_width img_height : Nat)
    (start_x start_y tile_footprint_width tile_footprint_height : ℚ)
    (row col : Nat) : Feature :=
  let tile_center_x := start_x + (col : ℚ) * tile_footprint_width + tile_footprint_width / 2
  let tile_center_y := start_y - (row : ℚ) * tile_footprint_height - tile_footprint_height / 2
  let half_width := tile_footprint_width / 2
  let half_height := tile_footprint_height / 2
  { tile_row := some row
    tile_col := some col
    latitude := lat
    longitude := lon
    altitude_m := altitude
    dsm_median_m := dsm_median
    flight_height_m := flight_height
    gsd_m := gsd
    footprint_width_m := tile_footprint_width
    footprint_height_m := tile_footprint_height
    footprint_area_m2 := tile_footprint_width * tile_footprint_height
    image_width_px := img_width
    image_height_px := img_height
    geometry :=
      [(tile_center_x - half_width, tile_center_y - half_height),
       (tile_center_x + half_width, tile_center_y - half_height),
       (tile_center_x + half_width, tile_center_y + half_height),
       (tile_center_x - half_width, tile_center_y + half_height),
       (tile_center_x - half_width, tile_center_y - half_height)] }

/-- The tile-crop double loop: `tiles_x = img_width // tile_width_px` columns,
`tiles_y = img_height // tile_height_px` rows, positioned from the top-left
corner of the full-image footprint. -/
def tileFeatures (transform : ℚ → ℚ → ℚ × ℚ)
    (lat lon altitude dsm_median flight_height gsd : ℚ)
    (img_width img_height tile_width_px tile_height_px : Nat) : List Feature :=
  let tiles_x := img_width / tile_width_px
  let tiles_y := img_height / tile_height_px
  let tile_footprint_width := gsd * (tile_width_px : ℚ)
  let tile_footprint_height := gsd * (tile_height_px : ℚ)
  let full_footprint_width := gsd * (img_width : ℚ)
  let full_footprint_height := gsd * (img_height : ℚ)
  let c := transform lon lat
  let start_x := c.1 - full_footprint_width / 2
  let start_y := c.2 + full_footprint_height / 2
  (List.range tiles_y).flatMap (fun row =>
    (List.range tiles_x).map (fun col =>
      mkTileFeature lat lon altitude dsm_median flight_height gsd
        img_width img_height start_x start_y
        tile_footprint_width tile_footprint_height row col))

/-- `process_image_from_url`, lines 434-649.  The external per-image effects
(GPS/altitude extraction of the wide image, EXIF dimensions of the zoom image,
DSM median sampling) enter as the optional values the source branches on.
Returns the optional feature list and the levels of the log records the call
itself emits.  `center_crop` is tested for Python truthiness: passing `0`
selects the full-image branch. -/
def process_image_from_url (gps_data : Option (ℚ × ℚ × ℚ))
    (dims : Option (Nat × Nat)) (dsm_sample : Option ℚ)
    (sensor_width_mm focal_length_mm : ℚ) (transform : ℚ → ℚ → ℚ × ℚ)
    (center_crop : Option Nat) (tile_crop : Option (Nat × Nat)) :
    Option (List Feature) × List LogLevel :=
  match gps_data with
  | none => (none, [LogLevel.warning])
  | some (lat, lon, altitude) =>
    match dims with
    | none => (none, [LogLevel.warning])
    | some (img_width, img_height) =>
      match dsm_sample with
      | none => (none, [LogLevel.warning])
      | some dsm_median =>
        let flight_height := altitude - dsm_median
        if flight_height ≤ 0 then (none, [LogLevel.warning])
        else
          let gsd := (sensor_width_mm * flight_height) / (focal_length_mm * (img_width : ℚ))
          match tile_crop with
          | some (tile_width_px, tile_height_px) =>
            (some (tileFeatures transform lat lon altitude dsm_median flight_height gsd
                img_width img_height tile_width_px tile_height_px),
             [LogLevel.info])
          | none =>
            match center_crop with
            | some c =>
              if c ≠ 0 then
                (some [simpleFeature transform lat lon altitude dsm_median flight_height gsd
                    img_width img_height (gsd * (c : ℚ)) (gsd * (c : ℚ))],
                 [LogLevel.info])
              else
                (some [simpleFeature transform lat lon altitude dsm_median flight_height gsd
                    img_width img_height (gsd * (img_width : ℚ)) (gsd * (img_height : ℚ))],
                 [LogLevel.info])
            | none =>
              (some [simpleFeature transform lat lon altitude dsm_median flight_height gsd
                  img_width img_height (gsd * (img_width : ℚ)) (gsd * (img_height : ℚ))],
               [LogLevel.info])

/-- The features a call to `process_image_from_url` emits (none on skip). -/
def emittedFeatures (r : Option (List Feature) × List LogLevel) : List Feature :=
  r.1.getD []

/-- `main`, lines 902-908: collect non-empty per-image results into
`all_features` (Python truthiness drops both `None` and `[]`). -/
def collectFeatures (results : List (Option (List Feature))) : List Feature :=
  results.foldl (fun acc r =>
    match r with
    | some fs => if fs.isEmpty then acc else acc ++ fs
    | none => acc) []

/-- The spec formula `GSD = (sensor_width_mm * H) / (focal_length_mm *
image_width_px)`, stated from the spec text for comparison with the code. -/
def gsd_spec (sensor_width_mm flight_height focal_length_mm image_width : ℚ) : ℚ :=
  (sensor_width_mm * flight_height) / (focal_length_mm * image_width)

/-- The spec description of tile `(row, col)`: a `tfw × tfh` rectangle whose
top-left corner sits `col` tile-widths right and `row` tile-heights below the
top-left corner `(startX, startY)` of the full-image footprint (closed ring,
SW → SE → NE → NW → SW). -/
def specTileRect (startX startY tfw tfh : ℚ) (row col : Nat) : List (ℚ × ℚ) :=
  let x0 := startX + (col : ℚ) * tfw
  let y0 := startY - (row : ℚ) * tfh
  [(x0, y0 - tfh), (x0 + tfw, y0 - tfh), (x0 + tfw, y0), (x0, y0), (x0, y0 - tfh)]

/-! ## Exit behaviour of the footprint script (`main`, lines 744-918) -/

/-- Python truthiness of the `--center-crop` integer argument. -/
def centerCropTruthy : Option Nat → Bool
  | some v => v ≠ 0
  | none => false

/-- The exit code of `main` as a function of the run's observables: whether
the DSM directory exists, the dated DSM catalog found in it, the two crop
flags, and the features produced by the whole run.  The guards appear in
source order; falling through the end of `main` exits 0. -/
def main_exit_code (dsm_dir_exists : Bool) (available_dsm_files : List (String × Int))
    (center_crop : Option Nat) (tile_crop : Option (Nat × Nat))
    (all_features : List Feature) : Nat :=
  if ¬ dsm_dir_exists then 1
  else if available_dsm_files.isEmpty then 1
  else if centerCropTruthy center_crop && tile_crop.isSome then 1
  else if all_features.isEmpty then 1
  else 0

/-! ## Points-extraction pipeline (`arbutuspictures2points.py`, lines 129-293) -/

/-- One row of the points layer. -/
structure Row where
  mission_id : String
  point_id : String
  wide_url : String
  lat : ℚ
  lon : ℚ
deriving DecidableEq

/-- The deduplication key of `drop_duplicates(subset=['mission_id',
'point_id', 'wide_url'])`. -/
def rowKey (r : Row) : String × String × String :=
  (r.mission_id, r.point_id, r.wide_url)

/-- One remote mission folder (name already stripped of its trailing `/`) and
its recursive file listing. -/
structure Mission where
  folder : String
  files : List String

/-- The unchanged remote store a run sees: the matching mission folders in
listing order, and the GPS extraction oracle — for each wide-image URL, the
`(latitude, longitude)` its EXIF yields, if any (`get_coordinates_from_image_url`
composed with the fetch, which is deterministic for an unchanged store). -/
structure Store where
  missions : List Mission
  coords : String → Option (ℚ × ℚ)

/-- `zoom_basename.split("_")[-1].lower().replace("zoom.jpg", "")`. -/
def zoomIdentifier (zoomFile : String) : String :=
  pyReplace (pyLower (pySplitLast '_' (basename zoomFile))) "zoom.jpg" ""

/-- `re.search(rf'_{identifier}\.jpg$', wide_basename, re.IGNORECASE)`:
the identifier is already lower-case, so this is a lower-cased suffix test. -/
def matchesWide (identifier wideFile : String) : Bool :=
  pyEndsWith (pyLower (basename wideFile)) ("_" ++ identifier ++ ".jpg")

/-- `f"https://object-arbutus.cloud.computecanada.ca/{folder}/{file}"`. -/
def wideUrl (folder file : String) : String :=
  "https://object-arbutus.cloud.computecanada.ca/" ++ folder ++ "/" ++ file

/-- The key normalisation of the incremental-path wide lookup:
`basename(wf).split('_')[-1].lower().replace('jpg','').replace('.','').replace('zoom','')`. -/
def wideNormId (wideFile : String) : String :=
  pyReplace (pyReplace (pyReplace (pyLower (pySplitLast '_' (basename wideFile)))
    "jpg" "") "." "") "zoom" ""

/-- The dict comprehension `{norm(wf): wf for wf in wide_files}` followed by
`.get(identifier)`: later entries overwrite earlier ones, so look up the last
match. -/
def wideLookup (wideFiles : List String) (identifier : String) : Option String :=
  wideFiles.reverse.find? (fun wf => wideNormId wf == identifier)

/-- `process_zoom_file((zoom_file, wide_files, folder))`: pair the zoom image
with the first wide image whose name matches `_<identifier>.jpg`, extract GPS
from the wide URL, and build the row. -/
def process_zoom_file (coords : String → Option (ℚ × ℚ))
    (zoomFile : String) (wideFiles : List String) (folder : String) : Option Row :=
  let identifier := zoomIdentifier zoomFile
  match wideFiles.find? (fun w => matchesWide identifier w) with
  | none => none
  | some w =>
    match coords (wideUrl folder w) with
    | none => none
    | some c =>
      some { mission_id := folder, point_id := identifier,
             wide_url := wideUrl folder w, lat := c.1, lon := c.2 }

/-- `main`: wide files are `.JPG` without `zoom` in the lower-cased name. -/
def wideFilesOf (m : Mission) : List String :=
  m.files.filter (fun f => pyEndsWith f ".JPG" && !pyContains (pyLower f) "zoom")

/-- `main`: zoom files are `.JPG` with `zoom` in the lower-cased name. -/
def zoomFilesOf (m : Mission) : List String :=
  m.files.filter (fun f => pyEndsWith f ".JPG" && pyContains (pyLower f) "zoom")

/-- Mission names present in the existing layer (`existing_missions`). -/
def existingMissionIds (existing : List Row) : List String :=
  existing.map (fun r => r.mission_id)

/-- `existing_points` for one mission: the `(wide_url, point_id)` pairs of its
existing rows. -/
def existingPairsFor (existing : List Row) (folder : String) : List (String × String) :=
  (existing.filter (fun r => r.mission_id == folder)).map
    (fun r => (r.wide_url, r.point_id))

/-- Lines 241-266: if the mission is already present, keep only the zoom files
whose `(wide_url, point_id)` pair — with the wide URL resolved through the
lookup dict — is missing from the existing layer (files whose lookup fails are
dropped by the `if wide_url and …` truthiness test); otherwise process all. -/
def zoomFilesToProcess (existing : List Row) (folder : String)
    (zoomFiles wideFiles : List String) : List String :=
  if folder ∈ existingMissionIds existing then
    zoomFiles.filter (fun z =>
      let identifier := zoomIdentifier z
      match wideLookup wideFiles identifier with
      | some wf => decide ((wideUrl folder wf, identifier) ∉ existingPairsFor existing folder)
      | none => false)
  else zoomFiles

/-- The rows one mission contributes to `rows` (results of the worker pool,
`None`s dropped). -/
def processMissionRows (coords : String → Option (ℚ × ℚ)) (existing : List Row)
    (m : Mission) : List Row :=
  (zoomFilesToProcess existing m.folder (zoomFilesOf m) (wideFilesOf m)).filterMap
    (fun z => process_zoom_file coords z (wideFilesOf m) m.folder)

/-- `rows` accumulated over all mission folders. -/
def newRows (store : Store) (existing : List Row) : List Row :=
  store.missions.flatMap (processMissionRows store.coords existing)

/-- `drop_duplicates(subset=[...])` keeps the first occurrence of each key. -/
def dedupKeysAux (seen : List (String × String × String)) : List Row → List Row
  | [] => []
  | r :: rs =>
    if rowKey r ∈ seen then dedupKeysAux seen rs
    else r :: dedupKeysAux (rowKey r :: seen) rs

/-- `combined_gdf.drop_duplicates(subset=['mission_id', 'point_id', 'wide_url'])`. -/
def drop_duplicates (rows : List Row) : List Row := dedupKeysAux [] rows

/-- Lines 279-293: the points layer after one run.  No new rows leaves the
layer untouched; with a non-empty existing layer the new rows are concatenated
after it and deduplicated on the key; with no (or an empty) existing layer the
new rows are written as they are. -/
def runPipeline (store : Store) (existing : List Row) : List Row :=
  let rows := newRows store existing
  if rows.isEmpty then existing
  else if existing.isEmpty then rows
  else drop_duplicates (existing ++ rows)

/-! ## Concrete instances used by witnesses -/

/-- A concrete projection stand-in for the WGS84 → output-CRS transformer. -/
def idTransform : ℚ → ℚ → ℚ × ℚ := fun lon lat => (lon, lat)

/-- A concrete store with one mission holding one wide/zoom pair. -/
def storeEx : Store :=
  { missions := [{ folder := "20240101_bci_wpt1", files := ["a_01.JPG", "a_01zoom.JPG"] }],
    coords := fun _ => some (45, -73) }

/-- The row `storeEx` produces. -/
def rowEx : Row :=
  { mission_id := "20240101_bci_wpt1", point_id := "01",
    wide_url := "https://object-arbutus.cloud.computecanada.ca/20240101_bci_wpt1/a_01.JPG",
    lat := 45, lon := -73 }

/-- A concrete non-empty feature list for exercising `main_exit_code`. -/
def featureEx : Feature :=
  simpleFeature idTransform 45 (-73) 150 100 50 2 5280 3956 (2 * 5280) (2 * 3956)

/-! # Theorems -/

/-! ## Helper lemmas for the DSM matcher -/

theorem pyMaxByDate_cons (x y : String × Int) (ys : List (String × Int)) :
    pyMaxByDate x (y :: ys) = pyMaxByDate (if x.2 < y.2 then y else x) ys := rfl

theorem pyMaxByDate_mem (xs : List (String × Int)) :
    ∀ x, pyMaxByDate x xs = x ∨ pyMaxByDate x xs ∈ xs := by
  induction xs with
  | nil => intro x; exact Or.inl rfl
  | cons y ys ih =>
    intro x
    rw [pyMaxByDate_cons]
    rcases ih (if x.2 < y.2 then y else x) with h | h
    · rw [h]
      by_cases hxy : x.2 < y.2
      · rw [if_pos hxy]; exact Or.inr (List.mem_cons_self _ _)
      · rw [if_neg hxy]; exact Or.inl rfl
    · exact Or.inr (List.mem_cons_of_mem _ h)

theorem pyMaxByDate_ge (xs : List (String × Int)) :
    ∀ x, x.2 ≤ (pyMaxByDate x xs).2 ∧ ∀ y ∈ xs, y.2 ≤ (pyMaxByDate x xs).2 := by
  induction xs with
  | nil => intro x; exact ⟨le_refl _, by simp⟩
  | cons y ys ih =>
    intro x
    rw [pyMaxByDate_cons]
    obtain ⟨h1, h2⟩ := ih (if x.2 < y.2 then y else x)
    have hx : x.2 ≤ (if x.2 < y.2 then y else x).2 := by
      by_cases hxy : x.2 < y.2
      · rw [if_pos hxy]; exact le_of_lt hxy
      · rw [if_neg hxy]
    have hy : y.2 ≤ (if x.2 < y.2 then y else x).2 := by
      by_cases hxy : x.2 < y.2
      · rw [if_pos hxy]
      · rw [if_neg hxy]; exact le_of_not_lt hxy
    refine ⟨le_trans hx h1, ?_⟩
    intro z hz
    rcases List.mem_cons.mp hz with hz | hz
    · rw [hz]; exact le_trans hy h1
    · exact h2 z hz

/-- C1.  For every mission date `T` and DSM catalog, `select_closest_dsm`
returns `none` exactly when the catalog is empty or no entry is dated on or
before `T`; and when it returns a path, that path belongs to a catalog entry
dated on or before `T` whose date is maximal among all such entries. -/
theorem select_closest_dsm_spec (T : Int) (catalog : List (String × Int)) :
    (select_closest_dsm T catalog = none ↔
      catalog = [] ∨ ∀ pd ∈ catalog, ¬ pd.2 ≤ T) ∧
    (∀ p, select_closest_dsm T catalog = some p →
      ∃ d, (p, d) ∈ catalog ∧ d ≤ T ∧ ∀ pd ∈ catalog, pd.2 ≤ T → pd.2 ≤ d) := by
  unfold select_closest_dsm
  by_cases hempty : catalog = []
  · subst hempty; simp
  · rw [if_neg (by simpa [List.isEmpty_iff] using hempty)]
    cases hfil : catalog.filter (fun pd => decide (pd.2 ≤ T)) with
    | nil =>
      have hall : ∀ pd ∈ catalog, ¬ pd.2 ≤ T := by
        intro pd hpd
        have := List.filter_eq_nil_iff.mp hfil pd hpd
        simpa using this
      exact ⟨by simpa using Or.inr hall, by intro p hp; cases hp⟩
    | cons v vs =>
      have hvfil : v ∈ catalog.filter (fun pd => decide (pd.2 ≤ T)) := by
        rw [hfil]; exact List.mem_cons_self v vs
      constructor
      · constructor
        · intro h; exact Option.noConfusion h
        · intro h
          rcases h with h | h
          · exact absurd h hempty
          · obtain ⟨hv, hvle⟩ := List.mem_filter.mp hvfil
            exact absurd (by simpa using hvle) (h v hv)
      · intro p hp
        have hmem : pyMaxByDate v vs ∈ v :: vs := by
          rcases pyMaxByDate_mem vs v with h | h
          · rw [h]; exact List.mem_cons_self _ _
          · exact List.mem_cons_of_mem _ h
        have hmemfil : pyMaxByDate v vs ∈ catalog.filter (fun pd => decide (pd.2 ≤ T)) := by
          rw [hfil]; exact hmem
        have hmemcat : pyMaxByDate v vs ∈ catalog ∧ (pyMaxByDate v vs).2 ≤ T := by
          have := List.mem_filter.mp hmemfil
          exact ⟨this.1, by simpa using this.2⟩
        refine ⟨(pyMaxByDate v vs).2, ?_, hmemcat.2, ?_⟩
        · have : p = (pyMaxByDate v vs).1 := by
            injection hp with h; exact h.symm
          rw [this]
          exact hmemcat.1
        · intro pd hpd hle
          have hpdf : pd ∈ v :: vs := by
            rw [← hfil]
            exact List.mem_filter.mpr ⟨hpd, by simpa using hle⟩
          obtain ⟨h1, h2⟩ := pyMaxByDate_ge vs v
          rcases List.mem_cons.mp hpdf with h | h
          · exact h ▸ h1
          · exact h2 pd h

/-- C1 witness: for a catalog dated `{T-10, T-5, T+5}` with `T = 0` the
selector returns the `T-5` entry, which the theorem certifies as maximal
among the non-future entries. -/
theorem select_closest_dsm_spec_witness :
    ∃ d, (("b", d) ∈ [("a", -10), ("b", -5), ("c", 5)]) ∧ d ≤ 0 ∧
      ∀ pd ∈ [(("a" : String), (-10 : Int)), ("b", -5), ("c", 5)], pd.2 ≤ 0 → pd.2 ≤ d :=
  (select_closest_dsm_spec 0 [("a", -10), ("b", -5), ("c", 5)]).2 "b" (by decide)

/-! ## GPS conversion and extraction -/

/-- C5.  For every DMS triple of rationals and axis reference among N/S/E/W,
both conversion functions return `d + m/60 + s/3600` decimal degrees, the sign
negated exactly when the reference is `S` or `W`. -/
theorem dms_conversion_correct (dv mv sv : Int × Int) (ref : String)
    (h : ref ∈ [("N" : String), "S", "E", "W"]) :
    dms_to_decimal dv mv sv ref =
      (if ref = "S" ∨ ref = "W" then
        -(ratVal dv + ratVal mv / 60 + ratVal sv / 3600)
      else ratVal dv + ratVal mv / 60 + ratVal sv / 3600) ∧
    convert_to_decimal_degrees [dv, mv, sv] ref.data =
      Except.ok (if ref = "S" ∨ ref = "W" then
        -(ratVal dv + ratVal mv / 60 + ratVal sv / 3600)
      else ratVal dv + ratVal mv / 60 + ratVal sv / 3600) := by
  fin_cases h <;>
    simp [dms_to_decimal, convert_to_decimal_degrees]

/-- C5 witness: a west-referenced triple, negated by both functions. -/
theorem dms_conversion_correct_witness :
    dms_to_decimal (73, 1) (30, 1) (45, 2) "W" =
      (if ("W" : String) = "S" ∨ ("W" : String) = "W" then
        -(ratVal (73, 1) + ratVal (30, 1) / 60 + ratVal (45, 2) / 3600)
      else ratVal (73, 1) + ratVal (30, 1) / 60 + ratVal (45, 2) / 3600) ∧
    convert_to_decimal_degrees [(73, 1), (30, 1), (45, 2)] "W".data =
      Except.ok (if ("W" : String) = "S" ∨ ("W" : String) = "W" then
        -(ratVal (73, 1) + ratVal (30, 1) / 60 + ratVal (45, 2) / 3600)
      else ratVal (73, 1) + ratVal (30, 1) / 60 + ratVal (45, 2) / 3600) :=
  dms_conversion_correct (73, 1) (30, 1) (45, 2) "W" (by decide)

theorem convert_isOk_iff (values : List (Int × Int)) (refValues : List Char) :
    (∃ q, convert_to_decimal_degrees values refValues = Except.ok q) ↔
      values.length = 3 := by
  rcases values with _ | ⟨a, _ | ⟨b, _ | ⟨c, _ | ⟨d, tl⟩⟩⟩⟩ <;>
    simp [convert_to_decimal_degrees]

theorem get_coordinates_none_iff (response : Option HttpImageResponse) :
    get_coordinates_from_image_url response = none ↔
      response = none ∨
      ∃ r, response = some r ∧
        (r.statusCode ≠ 200 ∨
         r.tags.gpsLatitude = none ∨ r.tags.gpsLatitudeRef = none ∨
         r.tags.gpsLongitude = none ∨ r.tags.gpsLongitudeRef = none ∨
         (∃ v, r.tags.gpsLatitude = some v ∧ v.length ≠ 3) ∨
         (∃ v, r.tags.gpsLongitude = some v ∧ v.length ≠ 3)) := by
  rcases response with _ | r
  · simp [get_coordinates_from_image_url]
  · simp only [get_coordinates_from_image_url, Option.some.injEq, false_or,
      exists_eq_left', reduceCtorEq]
    by_cases hs : r.statusCode = 200
    · rw [if_pos hs]
      rcases hlat : r.tags.gpsLatitude with _ | latV
      · simp [hlat]
      rcases hlatR : r.tags.gpsLatitudeRef with _ | latR
      · simp [hlat, hlatR]
      rcases hlon : r.tags.gpsLongitude with _ | lonV
      · simp [hlat, hlatR, hlon]
      rcases hlonR : r.tags.gpsLongitudeRef with _ | lonR
      · simp [hlat, hlatR, hlon, hlonR]
      simp only [hlat, hlatR, hlon, hlonR, Option.some.injEq, reduceCtorEq,
        false_or, or_false, exists_eq_left']
      rcases hc1 : convert_to_decimal_degrees latV latR with e1 | q1
      · have h1 : latV.length ≠ 3 := by
          intro hlen
          obtain ⟨q, hq⟩ := (convert_isOk_iff latV latR).mpr hlen
          rw [hc1] at hq; exact Except.noConfusion hq
        simp [hs, h1]
      rcases hc2 : convert_to_decimal_degrees lonV lonR with e2 | q2
      · have h2 : lonV.length ≠ 3 := by
          intro hlen
          obtain ⟨q, hq⟩ := (convert_isOk_iff lonV lonR).mpr hlen
          rw [hc2] at hq; exact Except.noConfusion hq
        simp [hs, h2]
      · have h1 : latV.length = 3 := (convert_isOk_iff latV latR).mp ⟨q1, hc1⟩
        have h2 : lonV.length = 3 := (convert_isOk_iff lonV lonR).mp ⟨q2, hc2⟩
        simp [hs, h1, h2]
    · rw [if_neg hs]
      simp [hs]

theorem extract_gps_none_iff (response : Option ProjHttpResponse) :
    extract_gps_altitude_from_url response = none ↔
      response = none ∨
      ∃ r, response = some r ∧
        (r.statusCode ≠ 200 ∨
         r.tags.gpsLatitude = none ∨ r.tags.gpsLongitude = none ∨
         r.tags.gpsLatitudeRef = none ∨ r.tags.gpsLongitudeRef = none ∨
         (∃ v, r.tags.gpsLatitude = some v ∧ v.length < 3) ∨
         (∃ v, r.tags.gpsLongitude = some v ∧ v.length < 3) ∨
         r.tags.gpsAltitude = none ∨ r.tags.gpsAltitude = some [] ∨
         r.tags.gpsAltitudeRef = some []) := by
  rcases response with _ | r
  · simp [extract_gps_altitude_from_url]
  · simp only [extract_gps_altitude_from_url, Option.some.injEq, false_or,
      exists_eq_left', reduceCtorEq]
    by_cases hs : r.statusCode = 200
    · rw [if_pos hs]
      rcases hlat : r.tags.gpsLatitude with _ | latV
      · simp [hlat]
      rcases hlon : r.tags.gpsLongitude with _ | lonV
      · simp [hlat, hlon]
      rcases hlatR : r.tags.gpsLatitudeRef with _ | latR
      · simp [hlat, hlon, hlatR]
      rcases hlonR : r.tags.gpsLongitudeRef with _ | lonR
      · simp [hlat, hlon, hlatR, hlonR]
      rcases latV with _ | ⟨l0, _ | ⟨l1, _ | ⟨l2, lrest⟩⟩⟩ <;>
        rcases lonV with _ | ⟨n0, _ | ⟨n1, _ | ⟨n2, nrest⟩⟩⟩ <;>
        first
          | (simp [hlat, hlon, hlatR, hlonR, hs]; done)
          | (rcases halt : r.tags.gpsAltitude with _ | ⟨_ | ⟨a0, arest⟩⟩ <;>
              rcases haltR : r.tags.gpsAltitudeRef with _ | ⟨_ | ⟨ar0, arrest⟩⟩ <;>
              simp [hlat, hlon, hlatR, hlonR, hs, halt, haltR])
    · rw [if_neg hs]
      simp [hs]

/-- C6 (amended).  The points-pipeline extraction
(`get_coordinates_from_image_url`) returns `None` in exactly the claimed
cases: fetch unsuccessful, GPS tag absent, or a GPS value without exactly
three rational components.  The footprint-script extraction
(`extract_gps_altitude_from_url`) differs: it also fails when the altitude
value is absent or empty (or an altitude-reference value is empty), rejects
only GPS values with *fewer* than three components, and accepts values with
more than three by reading the first three. -/
theorem gps_extraction_failure_cases :
    (∀ response : Option HttpImageResponse,
      get_coordinates_from_image_url response = none ↔
        response = none ∨
        ∃ r, response = some r ∧
          (r.statusCode ≠ 200 ∨
           r.tags.gpsLatitude = none ∨ r.tags.gpsLatitudeRef = none ∨
           r.tags.gpsLongitude = none ∨ r.tags.gpsLongitudeRef = none ∨
           (∃ v, r.tags.gpsLatitude = some v ∧ v.length ≠ 3) ∨
           (∃ v, r.tags.gpsLongitude = some v ∧ v.length ≠ 3))) ∧
    (∀ response : Option ProjHttpResponse,
      extract_gps_altitude_from_url response = none ↔
        response = none ∨
        ∃ r, response = some r ∧
          (r.statusCode ≠ 200 ∨
           r.tags.gpsLatitude = none ∨ r.tags.gpsLongitude = none ∨
           r.tags.gpsLatitudeRef = none ∨ r.tags.gpsLongitudeRef = none ∨
           (∃ v, r.tags.gpsLatitude = some v ∧ v.length < 3) ∨
           (∃ v, r.tags.gpsLongitude = some v ∧ v.length < 3) ∨
           r.tags.gpsAltitude = none ∨ r.tags.gpsAltitude = some [] ∨
           r.tags.gpsAltitudeRef = some [])) :=
  ⟨get_coordinates_none_iff, extract_gps_none_iff⟩

/-- C6 counterexample: a payload whose GPS latitude has four rational
components — the footprint-script extraction returns a coordinate triple
rather than `None`; and a payload with perfect three-component GPS tags and
200 status but no altitude tag — that extraction returns `None` although none
of the claimed failure cases holds. -/
theorem gps_extraction_counterexample :
    (∃ v, respFourComponents.tags.gpsLatitude = some v ∧ v.length ≠ 3) ∧
    extract_gps_altitude_from_url (some respFourComponents) ≠ none ∧
    respNoAltitude.statusCode = 200 ∧
    (∃ v, respNoAltitude.tags.gpsLatitude = some v ∧ v.length = 3) ∧
    (∃ v, respNoAltitude.tags.gpsLongitude = some v ∧ v.length = 3) ∧
    extract_gps_altitude_from_url (some respNoAltitude) = none := by
  refine ⟨⟨_, rfl, by decide⟩, ?_, rfl, ⟨_, rfl, by decide⟩, ⟨_, rfl, by decide⟩, rfl⟩
  simp [extract_gps_altitude_from_url, respFourComponents]

/-! ## Footprint engine: flight height and GSD -/

theorem mem_emitted_fields (lat lon altitude dsm Sw FR : ℚ) (w h : Nat)
    (tr : ℚ → ℚ → ℚ × ℚ) (cc : Option Nat) (tc : Option (Nat × Nat)) (f : Feature)
    (hf : f ∈ emittedFeatures (process_image_from_url (some (lat, lon, altitude))
      (some (w, h)) (some dsm) Sw FR tr cc tc)) :
    f.flight_height_m = altitude - dsm ∧
    f.gsd_m = (Sw * (altitude - dsm)) / (FR * (w : ℚ)) := by
  unfold emittedFeatures process_image_from_url at hf
  dsimp only at hf
  by_cases hH : altitude - dsm ≤ 0
  · rw [if_pos hH] at hf
    simp at hf
  · rw [if_neg hH] at hf
    rcases tc with _ | ⟨tw, th⟩
    · rcases cc with _ | c
      · simp only [Option.getD_some, List.mem_singleton] at hf
        rw [hf]
        exact ⟨rfl, rfl⟩
      · dsimp only at hf
        by_cases hc : c ≠ 0
        · rw [if_pos hc] at hf
          simp only [Option.getD_some, List.mem_singleton] at hf
          rw [hf]
          exact ⟨rfl, rfl⟩
        · rw [if_neg hc] at hf
          simp only [Option.getD_some, List.mem_singleton] at hf
          rw [hf]
          exact ⟨rfl, rfl⟩
    · simp only [Option.getD_some, tileFeatures, List.mem_flatMap,
        List.mem_map, List.mem_range] at hf
      obtain ⟨row, _, col, _, hrc⟩ := hf
      rw [← hrc]
      exact ⟨rfl, rfl⟩

/-- C2.  With GPS, dimensions and DSM sampling all successful, the flight
height is `altitude - dsm_median`; when it is non-positive the image is
skipped with one warning and contributes zero footprints, and every emitted
footprint carries a strictly positive `flight_height_m`. -/
theorem flight_height_positive_invariant (lat lon altitude dsm Sw FR : ℚ)
    (w h : Nat) (tr : ℚ → ℚ → ℚ × ℚ) (cc : Option Nat) (tc : Option (Nat × Nat)) :
    (altitude - dsm ≤ 0 →
      process_image_from_url (some (lat, lon, altitude)) (some (w, h)) (some dsm)
          Sw FR tr cc tc = (none, [LogLevel.warning]) ∧
      collectFeatures [(process_image_from_url (some (lat, lon, altitude))
          (some (w, h)) (some dsm) Sw FR tr cc tc).1] = []) ∧
    ∀ f ∈ emittedFeatures (process_image_from_url (some (lat, lon, altitude))
        (some (w, h)) (some dsm) Sw FR tr cc tc),
      0 < f.flight_height_m := by
  constructor
  · intro hH
    have hskip : process_image_from_url (some (lat, lon, altitude)) (some (w, h))
        (some dsm) Sw FR tr cc tc = (none, [LogLevel.warning]) := by
      unfold process_image_from_url
      dsimp only
      rw [if_pos hH]
    refine ⟨hskip, ?_⟩
    rw [hskip]
    rfl
  · intro f hf
    have hfields := mem_emitted_fields lat lon altitude dsm Sw FR w h tr cc tc f hf
    by_cases hH : altitude - dsm ≤ 0
    · exfalso
      have hskip : process_image_from_url (some (lat, lon, altitude)) (some (w, h))
          (some dsm) Sw FR tr cc tc = (none, [LogLevel.warning]) := by
        unfold process_image_from_url
        dsimp only
        rw [if_pos hH]
      rw [hskip] at hf
      simp [emittedFeatures] at hf
    · rw [hfields.1]
      exact lt_of_not_le hH

/-- C2 witness: altitude 90 m over a DSM median of 100 m is skipped with a
warning and zero footprints. -/
theorem flight_height_positive_invariant_witness :
    process_image_from_url (some (45, -73, 90)) (some (5280, 3956)) (some 100)
        (64/10) (299/10) idTransform none none = (none, [LogLevel.warning]) ∧
    collectFeatures [(process_image_from_url (some (45, -73, 90))
        (some (5280, 3956)) (some 100) (64/10) (299/10) idTransform none none).1] = [] :=
  (flight_height_positive_invariant 45 (-73) 90 100 (64/10) (299/10) 5280 3956
    idTransform none none).1 (by norm_num)

/-- C3.  Every emitted footprint's GSD equals
`(sensor_width * H) / (focal_length * image_width)`; doubling the flight
height doubles this value and doubling the focal length halves it. -/
theorem gsd_formula_correct (lat lon altitude dsm Sw FR : ℚ) (w h : Nat)
    (tr : ℚ → ℚ → ℚ × ℚ) (cc : Option Nat) (tc : Option (Nat × Nat))
    (hH : 0 < altitude - dsm) (hSw : 0 < Sw) (hFR : 0 < FR) (hw : 0 < w) :
    (∀ f ∈ emittedFeatures (process_image_from_url (some (lat, lon, altitude))
        (some (w, h)) (some dsm) Sw FR tr cc tc),
      f.gsd_m = gsd_spec Sw (altitude - dsm) FR (w : ℚ)) ∧
    gsd_spec Sw (2 * (altitude - dsm)) FR (w : ℚ)
      = 2 * gsd_spec Sw (altitude - dsm) FR (w : ℚ) ∧
    gsd_spec Sw (altitude - dsm) (2 * FR) (w : ℚ)
      = gsd_spec Sw (altitude - dsm) FR (w : ℚ) / 2 := by
  have hFR0 : FR ≠ 0 := ne_of_gt hFR
  have hw0 : (w : ℚ) ≠ 0 := by positivity
  refine ⟨?_, ?_, ?_⟩
  · intro f hf
    exact (mem_emitted_fields lat lon altitude dsm Sw FR w h tr cc tc f hf).2
  · unfold gsd_spec
    field_simp
    ring
  · unfold gsd_spec
    field_simp
    ring

/-- C3 witness: the end-to-end scenario numbers (H = 50 m, 5280 px wide,
6.4 mm sensor, 29.9 mm focal length), full-image mode. -/
theorem gsd_formula_correct_witness :
    (∀ f ∈ emittedFeatures (process_image_from_url (some (45, -73, 150))
        (some (5280, 3956)) (some 100) (64/10) (299/10) idTransform none none),
      f.gsd_m = gsd_spec (64/10) (150 - 100) (299/10) ((5280 : Nat) : ℚ)) ∧
    gsd_spec (64/10) (2 * (150 - 100)) (299/10) ((5280 : Nat) : ℚ)
      = 2 * gsd_spec (64/10) (150 - 100) (299/10) ((5280 : Nat) : ℚ) ∧
    gsd_spec (64/10) (150 - 100) (2 * (299/10)) ((5280 : Nat) : ℚ)
      = gsd_spec (64/10) (150 - 100) (299/10) ((5280 : Nat) : ℚ) / 2 :=
  gsd_formula_correct 45 (-73) 150 100 (64/10) (299/10) 5280 3956 idTransform
    none none (by norm_num) (by norm_num) (by norm_num) (by norm_num)

/-! ## Footprint engine: tiled mode -/

theorem map_eq_replicate_of_forall {α β : Type} (l : List α) (g : α → β) (c : β)
    (h : ∀ x ∈ l, g x = c) : l.map g = List.replicate l.length c := by
  induction l with
  | nil => rfl
  | cons a as ih =>
    simp only [List.map_cons, List.length_cons, List.replicate_succ, List.cons.injEq]
    exact ⟨h a (List.mem_cons_self a as), ih (fun x hx => h x (List.mem_cons_of_mem a hx))⟩

theorem tiled_emitted (lat lon altitude dsm Sw FR : ℚ) (w h tw th : Nat)
    (tr : ℚ → ℚ → ℚ × ℚ) (cc : Option Nat) (hH : 0 < altitude - dsm) :
    emittedFeatures (process_image_from_url (some (lat, lon, altitude))
        (some (w, h)) (some dsm) Sw FR tr cc (some (tw, th)))
      = tileFeatures tr lat lon altitude dsm (altitude - dsm)
          (gsd_spec Sw (altitude - dsm) FR (w : ℚ)) w h tw th := by
  unfold emittedFeatures process_image_from_url
  dsimp only
  rw [if_neg (not_le.mpr hH)]
  rfl

theorem mem_tileFeatures (f : Feature) (lat lon altitude dsm fh gsd : ℚ)
    (tr : ℚ → ℚ → ℚ × ℚ) (w h tw th : Nat) :
    f ∈ tileFeatures tr lat lon altitude dsm fh gsd w h tw th ↔
      ∃ row col, row < h / th ∧ col < w / tw ∧
        f = mkTileFeature lat lon altitude dsm fh gsd w h
              ((tr lon lat).1 - gsd * (w : ℚ) / 2) ((tr lon lat).2 + gsd * (h : ℚ) / 2)
              (gsd * (tw : ℚ)) (gsd * (th : ℚ)) row col := by
  unfold tileFeatures
  simp only [List.mem_flatMap, List.mem_map, List.mem_range]
  constructor
  · rintro ⟨row, hrow, col, hcol, rfl⟩
    exact ⟨row, col, hrow, hcol, rfl⟩
  · rintro ⟨row, col, hrow, hcol, rfl⟩
    exact ⟨row, hrow, col, hcol, rfl⟩

theorem tileFeatures_length (lat lon altitude dsm fh gsd : ℚ)
    (tr : ℚ → ℚ → ℚ × ℚ) (w h tw th : Nat) :
    (tileFeatures tr lat lon altitude dsm fh gsd w h tw th).length
      = (h / th) * (w / tw) := by
  unfold tileFeatures
  rw [List.length_flatMap]
  simp [Function.comp_def]

theorem mkTileFeature_geometry (lat lon altitude dsm fh gsd sx sy tfw tfh : ℚ)
    (w h : Nat) (row col : Nat) :
    (mkTileFeature lat lon altitude dsm fh gsd w h sx sy tfw tfh row col).geometry
      = specTileRect sx sy tfw tfh row col := by
  unfold mkTileFeature specTileRect
  dsimp only
  simp only [List.cons.injEq, Prod.mk.injEq, and_true]
  and_intros <;> ring

/-- C4.  In tiled mode an image of pixel size `w × h` with tile size `tw × th`
yields exactly `(w / tw) * (h / th)` footprints; each is a `(GSD * tw) ×
(GSD * th)` rectangle at grid position `(row, col)` offset from the top-left
corner of the full-image footprint, with `row < h / th` and `col < w / tw`;
the areas sum to `tiles_x * tiles_y * (GSD * tw) * (GSD * th)`, and
`tiles_x * (GSD * tw) ≤ GSD * w`. -/
theorem tiled_footprints_spec (lat lon altitude dsm Sw FR : ℚ) (w h tw th : Nat)
    (tr : ℚ → ℚ → ℚ × ℚ) (cc : Option Nat)
    (hH : 0 < altitude - dsm) (hSw : 0 < Sw) (hFR : 0 < FR) (hw : 0 < w)
    (htw : 0 < tw) (hth : 0 < th) :
    (emittedFeatures (process_image_from_url (some (lat, lon, altitude))
        (some (w, h)) (some dsm) Sw FR tr cc (some (tw, th)))).length
      = (w / tw) * (h / th) ∧
    (∀ f ∈ emittedFeatures (process_image_from_url (some (lat, lon, altitude))
        (some (w, h)) (some dsm) Sw FR tr cc (some (tw, th))),
      ∃ row col, row < h / th ∧ col < w / tw ∧
        f.tile_row = some row ∧ f.tile_col = some col ∧
        f.footprint_width_m = gsd_spec Sw (altitude - dsm) FR (w : ℚ) * (tw : ℚ) ∧
        f.footprint_height_m = gsd_spec Sw (altitude - dsm) FR (w : ℚ) * (th : ℚ) ∧
        f.geometry = specTileRect
          ((tr lon lat).1 - gsd_spec Sw (altitude - dsm) FR (w : ℚ) * (w : ℚ) / 2)
          ((tr lon lat).2 + gsd_spec Sw (altitude - dsm) FR (w : ℚ) * (h : ℚ) / 2)
          (gsd_spec Sw (altitude - dsm) FR (w : ℚ) * (tw : ℚ))
          (gsd_spec Sw (altitude - dsm) FR (w : ℚ) * (th : ℚ)) row col) ∧
    ((emittedFeatures (process_image_from_url (some (lat, lon, altitude))
        (some (w, h)) (some dsm) Sw FR tr cc (some (tw, th)))).map
      (fun f => f.footprint_area_m2)).sum
      = (((w / tw) * (h / th) : Nat) : ℚ) *
          (gsd_spec Sw (altitude - dsm) FR (w : ℚ) * (tw : ℚ) *
            (gsd_spec Sw (altitude - dsm) FR (w : ℚ) * (th : ℚ))) ∧
    ((w / tw : Nat) : ℚ) * (gsd_spec Sw (altitude - dsm) FR (w : ℚ) * (tw : ℚ))
      ≤ gsd_spec Sw (altitude - dsm) FR (w : ℚ) * (w : ℚ) := by
  have hemit := tiled_emitted lat lon altitude dsm Sw FR w h tw th tr cc hH
  have hwq : (0 : ℚ) < (w : ℚ) := by exact_mod_cast hw
  have hgsd : 0 < gsd_spec Sw (altitude - dsm) FR (w : ℚ) :=
    div_pos (mul_pos hSw hH) (mul_pos hFR hwq)
  refine ⟨?_, ?_, ?_, ?_⟩
  · rw [hemit, tileFeatures_length]
    exact Nat.mul_comm _ _
  · intro f hf
    rw [hemit] at hf
    obtain ⟨row, col, hrow, hcol, rfl⟩ := (mem_tileFeatures f _ _ _ _ _ _ tr w h tw th).mp hf
    exact ⟨row, col, hrow, hcol, rfl, rfl, rfl, rfl,
      mkTileFeature_geometry _ _ _ _ _ _ _ _ _ _ w h row col⟩
  · rw [hemit]
    have hall : ∀ f ∈ tileFeatures tr lat lon altitude dsm (altitude - dsm)
        (gsd_spec Sw (altitude - dsm) FR (w : ℚ)) w h tw th,
        f.footprint_area_m2 = gsd_spec Sw (altitude - dsm) FR (w : ℚ) * (tw : ℚ) *
          (gsd_spec Sw (altitude - dsm) FR (w : ℚ) * (th : ℚ)) := by
      intro f hf
      obtain ⟨row, col, _, _, rfl⟩ := (mem_tileFeatures f _ _ _ _ _ _ tr w h tw th).mp hf
      rfl
    rw [map_eq_replicate_of_forall _ _ _ hall, List.sum_replicate, tileFeatures_length,
      nsmul_eq_mul]
    congr 1
    push_cast [Nat.mul_comm]
    ring
  · have hdle : ((w / tw * tw : Nat) : ℚ) ≤ (w : ℚ) := by
      exact_mod_cast Nat.div_mul_le_self w tw
    calc ((w / tw : Nat) : ℚ) * (gsd_spec Sw (altitude - dsm) FR (w : ℚ) * (tw : ℚ))
        = gsd_spec Sw (altitude - dsm) FR (w : ℚ) * ((w / tw : Nat) * (tw : ℚ)) := by
          ring
      _ ≤ gsd_spec Sw (altitude - dsm) FR (w : ℚ) * (w : ℚ) := by
          apply mul_le_mul_of_nonneg_left _ (le_of_lt hgsd)
          push_cast at hdle ⊢
          exact hdle

/-- C4 witness: a 10 × 8 px image with 4 × 3 px tiles (H = 50 m) — 2 × 2
tiles, conserved area, no horizontal overflow. -/
theorem tiled_footprints_spec_witness :
    (emittedFeatures (process_image_from_url (some (45, -73, 150))
        (some (10, 8)) (some 100) 1 1 idTransform none (some (4, 3)))).length
      = (10 / 4) * (8 / 3) ∧
    (∀ f ∈ emittedFeatures (process_image_from_url (some (45, -73, 150))
        (some (10, 8)) (some 100) 1 1 idTransform none (some (4, 3))),
      ∃ row col, row < 8 / 3 ∧ col < 10 / 4 ∧
        f.tile_row = some row ∧ f.tile_col = some col ∧
        f.footprint_width_m = gsd_spec 1 (150 - 100) 1 ((10 : Nat) : ℚ) * ((4 : Nat) : ℚ) ∧
        f.footprint_height_m = gsd_spec 1 (150 - 100) 1 ((10 : Nat) : ℚ) * ((3 : Nat) : ℚ) ∧
        f.geometry = specTileRect
          ((idTransform (-73) 45).1 - gsd_spec 1 (150 - 100) 1 ((10 : Nat) : ℚ) * ((10 : Nat) : ℚ) / 2)
          ((idTransform (-73) 45).2 + gsd_spec 1 (150 - 100) 1 ((10 : Nat) : ℚ) * ((8 : Nat) : ℚ) / 2)
          (gsd_spec 1 (150 - 100) 1 ((10 : Nat) : ℚ) * ((4 : Nat) : ℚ))
          (gsd_spec 1 (150 - 100) 1 ((10 : Nat) : ℚ) * ((3 : Nat) : ℚ)) row col) ∧
    ((emittedFeatures (process_image_from_url (some (45, -73, 150))
        (some (10, 8)) (some 100) 1 1 idTransform none (some (4, 3)))).map
      (fun f => f.footprint_area_m2)).sum
      = (((10 / 4) * (8 / 3) : Nat) : ℚ) *
          (gsd_spec 1 (150 - 100) 1 ((10 : Nat) : ℚ) * ((4 : Nat) : ℚ) *
            (gsd_spec 1 (150 - 100) 1 ((10 : Nat) : ℚ) * ((3 : Nat) : ℚ))) ∧
    ((10 / 4 : Nat) : ℚ) * (gsd_spec 1 (150 - 100) 1 ((10 : Nat) : ℚ) * ((4 : Nat) : ℚ))
      ≤ gsd_spec 1 (150 - 100) 1 ((10 : Nat) : ℚ) * ((10 : Nat) : ℚ) :=
  tiled_footprints_spec 45 (-73) 150 100 1 1 10 8 4 3 idTransform none
    (by norm_num) (by norm_num) (by norm_num) (by norm_num) (by norm_num) (by norm_num)

/-! ## Footprint engine: degenerate tiling -/

theorem tiled_result (lat lon altitude dsm Sw FR : ℚ) (w h tw th : Nat)
    (tr : ℚ → ℚ → ℚ × ℚ) (cc : Option Nat) (hH : 0 < altitude - dsm) :
    process_image_from_url (some (lat, lon, altitude)) (some (w, h)) (some dsm)
        Sw FR tr cc (some (tw, th))
      = (some (tileFeatures tr lat lon altitude dsm (altitude - dsm)
          (gsd_spec Sw (altitude - dsm) FR (w : ℚ)) w h tw th), [LogLevel.info]) := by
  unfold process_image_from_url
  dsimp only
  rw [if_neg (not_le.mpr hH)]
  rfl

theorem tileFeatures_eq_nil (lat lon altitude dsm fh gsd : ℚ)
    (tr : ℚ → ℚ → ℚ × ℚ) (w h tw th : Nat) (hzero : (h / th) * (w / tw) = 0) :
    tileFeatures tr lat lon altitude dsm fh gsd w h tw th = [] := by
  apply List.eq_nil_of_length_eq_zero
  rw [tileFeatures_length]
  exact hzero

/-- C10.  In tiled mode, an image narrower or shorter than one tile yields
zero tiles: the call returns `some []`, only an info-level record is logged
(no warning or error), and the main loop collects nothing for the image. -/
theorem oversized_tile_silent_empty (lat lon altitude dsm Sw FR : ℚ)
    (w h tw th : Nat) (tr : ℚ → ℚ → ℚ × ℚ) (cc : Option Nat)
    (hH : 0 < altitude - dsm) (hdim : w < tw ∨ h < th) :
    (w / tw) * (h / th) = 0 ∧
    (process_image_from_url (some (lat, lon, altitude)) (some (w, h)) (some dsm)
        Sw FR tr cc (some (tw, th))).1 = some [] ∧
    (∀ lv ∈ (process_image_from_url (some (lat, lon, altitude)) (some (w, h))
        (some dsm) Sw FR tr cc (some (tw, th))).2, lv = LogLevel.info) ∧
    collectFeatures [(process_image_from_url (some (lat, lon, altitude))
        (some (w, h)) (some dsm) Sw FR tr cc (some (tw, th))).1] = [] := by
  have hzero : (w / tw) * (h / th) = 0 := by
    rcases hdim with hlt | hlt
    · rw [Nat.div_eq_of_lt hlt, Nat.zero_mul]
    · rw [Nat.div_eq_of_lt hlt, Nat.mul_zero]
  have hres := tiled_result lat lon altitude dsm Sw FR w h tw th tr cc hH
  have hnil : tileFeatures tr lat lon altitude dsm (altitude - dsm)
      (gsd_spec Sw (altitude - dsm) FR (w : ℚ)) w h tw th = [] :=
    tileFeatures_eq_nil _ _ _ _ _ _ tr w h tw th (by rw [Nat.mul_comm]; exact hzero)
  refine ⟨hzero, ?_, ?_, ?_⟩
  · rw [hres, hnil]
  · rw [hres]
    intro lv hlv
    simpa using hlv
  · rw [hres, hnil]
    rfl

/-- C10 witness: a 2 × 2 px image with 3 × 3 px tiles emits nothing and logs
only the info record. -/
theorem oversized_tile_silent_empty_witness :
    (2 / 3) * (2 / 3) = 0 ∧
    (process_image_from_url (some (45, -73, 150)) (some (2, 2)) (some 100)
        1 1 idTransform none (some (3, 3))).1 = some [] ∧
    (∀ lv ∈ (process_image_from_url (some (45, -73, 150)) (some (2, 2))
        (some 100) 1 1 idTransform none (some (3, 3))).2, lv = LogLevel.info) ∧
    collectFeatures [(process_image_from_url (some (45, -73, 150)) (some (2, 2))
        (some 100) 1 1 idTransform none (some (3, 3))).1] = [] :=
  oversized_tile_silent_empty 45 (-73) 150 100 1 1 2 2 3 3 idTransform none
    (by norm_num) (Or.inl (by norm_num))

/-! ## Exit behaviour of the footprint script -/

/-- C8 as stated is falsified by Python truthiness: `--center-crop 0` counts
as "given" yet does not trigger the mutual-exclusion exit; with features
produced, the run exits 0 where the claim demands exit code 1. -/
theorem main_exit_counterexample :
    (some 0 : Option Nat) ≠ none ∧ (some (1000, 1000) : Option (Nat × Nat)) ≠ none ∧
    main_exit_code true [("dsm_20240101.tif", 0)] (some 0) (some (1000, 1000))
      [featureEx] = 0 := by
  refine ⟨by simp, by simp, ?_⟩
  rfl

/-- C8 (amended).  The script exits 1 exactly when the DSM directory is
missing, the dated DSM catalog is empty, `--tile-crop` is given together with
a *truthy* (non-zero) `--center-crop`, or the whole run produced zero
footprint features; in every other configuration it exits 0. -/
theorem main_exit_code_cases (dsm_dir_exists : Bool)
    (available_dsm_files : List (String × Int)) (center_crop : Option Nat)
    (tile_crop : Option (Nat × Nat)) (all_features : List Feature) :
    (main_exit_code dsm_dir_exists available_dsm_files center_crop tile_crop
        all_features = 1 ↔
      dsm_dir_exists = false ∨ available_dsm_files = [] ∨
      ((∃ v, center_crop = some v ∧ v ≠ 0) ∧ tile_crop ≠ none) ∨
      all_features = []) ∧
    (main_exit_code dsm_dir_exists available_dsm_files center_crop tile_crop
        all_features = 0 ∨
     main_exit_code dsm_dir_exists available_dsm_files center_crop tile_crop
        all_features = 1) := by
  unfold main_exit_code
  rcases dsm_dir_exists with _ | _
  · simp
  · rcases available_dsm_files with _ | ⟨d, ds⟩
    · simp
    · rcases center_crop with _ | c
      · rcases all_features with _ | ⟨f, fs⟩ <;> simp [centerCropTruthy]
      · by_cases hc : c = 0
        · subst hc
          rcases all_features with _ | ⟨f, fs⟩ <;> simp [centerCropTruthy]
        · rcases tile_crop with _ | t
          · rcases all_features with _ | ⟨f, fs⟩ <;> simp [centerCropTruthy, hc]
          · simp [centerCropTruthy, hc]

/-! ## Points pipeline: deduplication lemmas -/

theorem dedupKeysAux_subset (l : List Row) :
    ∀ seen, ∀ r ∈ dedupKeysAux seen l, r ∈ l := by
  induction l with
  | nil => intro seen r hr; simp [dedupKeysAux] at hr
  | cons a as ih =>
    intro seen r hr
    unfold dedupKeysAux at hr
    by_cases ha : rowKey a ∈ seen
    · rw [if_pos ha] at hr
      exact List.mem_cons_of_mem _ (ih seen r hr)
    · rw [if_neg ha] at hr
      rcases List.mem_cons.mp hr with h | h
      · rw [h]; exact List.mem_cons_self _ _
      · exact List.mem_cons_of_mem _ (ih _ r h)

theorem dedupKeysAux_key_not_seen (l : List Row) :
    ∀ seen, ∀ r ∈ dedupKeysAux seen l, rowKey r ∉ seen := by
  induction l with
  | nil => intro seen r hr; simp [dedupKeysAux] at hr
  | cons a as ih =>
    intro seen r hr
    unfold dedupKeysAux at hr
    by_cases ha : rowKey a ∈ seen
    · rw [if_pos ha] at hr
      exact ih seen r hr
    · rw [if_neg ha] at hr
      rcases List.mem_cons.mp hr with h | h
      · rw [h]; exact ha
      · intro hs
        exact ih _ r h (List.mem_cons_of_mem _ hs)

theorem mem_dedupKeysAux_append (B : List Row) :
    ∀ (A : List Row) (seen : List (String × String × String)) (r : Row),
      r ∈ dedupKeysAux seen (A ++ B) →
      r ∈ A ∨ (r ∈ B ∧ rowKey r ∉ seen ∧ rowKey r ∉ A.map rowKey) := by
  intro A
  induction A with
  | nil =>
    intro seen r hr
    exact Or.inr ⟨dedupKeysAux_subset B seen r hr,
      dedupKeysAux_key_not_seen B seen r hr, by simp⟩
  | cons a as ih =>
    intro seen r hr
    rw [List.cons_append] at hr
    unfold dedupKeysAux at hr
    by_cases ha : rowKey a ∈ seen
    · rw [if_pos ha] at hr
      rcases ih seen r hr with h | ⟨h1, h2, h3⟩
      · exact Or.inl (List.mem_cons_of_mem _ h)
      · refine Or.inr ⟨h1, h2, ?_⟩
        simp only [List.map_cons, List.mem_cons]
        push_neg
        exact ⟨fun he => h2 (he ▸ ha), by simpa using h3⟩
    · rw [if_neg ha] at hr
      rcases List.mem_cons.mp hr with h | h
      · rw [h]; exact Or.inl (List.mem_cons_self _ _)
      · rcases ih _ r h with h' | ⟨h1, h2, h3⟩
        · exact Or.inl (List.mem_cons_of_mem _ h')
        · have hne : rowKey r ≠ rowKey a := by
            intro he
            exact h2 (by rw [he]; exact List.mem_cons_self _ _)
          refine Or.inr ⟨h1, fun hs => h2 (List.mem_cons_of_mem _ hs), ?_⟩
          simp only [List.map_cons, List.mem_cons]
          push_neg
          exact ⟨hne, by simpa using h3⟩

theorem mem_keys_dedupKeysAux (l : List Row) :
    ∀ (seen : List (String × String × String)) (k : String × String × String),
      k ∈ l.map rowKey → k ∉ seen → k ∈ (dedupKeysAux seen l).map rowKey := by
  induction l with
  | nil => intro seen k hk _; simp at hk
  | cons a as ih =>
    intro seen k hk hns
    unfold dedupKeysAux
    rw [List.map_cons] at hk
    by_cases ha : rowKey a ∈ seen
    · rw [if_pos ha]
      rcases List.mem_cons.mp hk with h | h
      · exact absurd (h ▸ ha) hns
      · exact ih seen k h hns
    · rw [if_neg ha]
      rw [List.map_cons]
      rcases List.mem_cons.mp hk with h | h
      · rw [h]; exact List.mem_cons_self _ _
      · by_cases hka : k = rowKey a
        · rw [hka]; exact List.mem_cons_self _ _
        · refine List.mem_cons_of_mem _ (ih _ k h ?_)
          intro hmem
          rcases List.mem_cons.mp hmem with h' | h'
          · exact hka h'
          · exact hns h'

theorem dedup_append_subset (A B : List Row)
    (hB : ∀ r ∈ B, rowKey r ∈ A.map rowKey) :
    ∀ r ∈ drop_duplicates (A ++ B), r ∈ A := by
  intro r hr
  rcases mem_dedupKeysAux_append B A [] r hr with h | ⟨h1, _, h3⟩
  · exact h
  · exact absurd (hB r h1) h3

/-! ## Points pipeline: monotonicity across a run -/

theorem keys_sub_runPipeline (store : Store) (existing : List Row) :
    ∀ k ∈ existing.map rowKey, k ∈ (runPipeline store existing).map rowKey := by
  intro k hk
  unfold runPipeline
  by_cases hrows : (newRows store existing).isEmpty
  · rw [if_pos hrows]; exact hk
  · rw [if_neg hrows]
    by_cases hex : existing.isEmpty
    · rw [List.isEmpty_iff] at hex
      rw [hex] at hk
      simp at hk
    · rw [if_neg hex]
      unfold drop_duplicates
      apply mem_keys_dedupKeysAux
      · rw [List.map_append]
        exact List.mem_append_left _ hk
      · simp

theorem newRows_key_mem (store : Store) (existing : List Row) :
    ∀ r ∈ newRows store existing,
      rowKey r ∈ (runPipeline store existing).map rowKey := by
  intro r hr
  unfold runPipeline
  have hrows : ¬ (newRows store existing).isEmpty := by
    rw [List.isEmpty_iff]
    exact List.ne_nil_of_mem hr
  rw [if_neg hrows]
  by_cases hex : existing.isEmpty
  · rw [if_pos hex]
    exact List.mem_map_of_mem rowKey hr
  · rw [if_neg hex]
    unfold drop_duplicates
    apply mem_keys_dedupKeysAux
    · rw [List.map_append]
      exact List.mem_append_right _ (List.mem_map_of_mem rowKey hr)
    · simp

theorem mission_mono (store : Store) (existing : List Row) (folder : String)
    (h : folder ∈ existingMissionIds existing) :
    folder ∈ existingMissionIds (runPipeline store existing) := by
  unfold existingMissionIds at h ⊢
  obtain ⟨r, hr, hrf⟩ := List.mem_map.mp h
  have hk := keys_sub_runPipeline store existing (rowKey r)
    (List.mem_map_of_mem rowKey hr)
  obtain ⟨r', hr', hkr⟩ := List.mem_map.mp hk
  have hm : r'.mission_id = r.mission_id := congrArg (fun k => k.1) hkr
  exact List.mem_map.mpr ⟨r', hr', by rw [hm, hrf]⟩

theorem pairs_mono (store : Store) (existing : List Row) (folder : String) :
    ∀ p ∈ existingPairsFor existing folder,
      p ∈ existingPairsFor (runPipeline store existing) folder := by
  intro p hp
  unfold existingPairsFor at hp ⊢
  obtain ⟨r, hr, hpr⟩ := List.mem_map.mp hp
  obtain ⟨hre, hrm⟩ := List.mem_filter.mp hr
  have hk := keys_sub_runPipeline store existing (rowKey r)
    (List.mem_map_of_mem rowKey hre)
  obtain ⟨r', hr', hkr⟩ := List.mem_map.mp hk
  have hm : r'.mission_id = r.mission_id := congrArg (fun k => k.1) hkr
  have hpt : r'.point_id = r.point_id := congrArg (fun k => k.2.1) hkr
  have hwu : r'.wide_url = r.wide_url := congrArg (fun k => k.2.2) hkr
  refine List.mem_map.mpr ⟨r', List.mem_filter.mpr ⟨hr', ?_⟩, ?_⟩
  · rw [hm]
    exact hrm
  · rw [hpt, hwu]
    exact hpr

theorem zoomFilesToProcess_mono (store : Store) (existing : List Row)
    (folder : String) (zfs wfs : List String) :
    ∀ z ∈ zoomFilesToProcess (runPipeline store existing) folder zfs wfs,
      z ∈ zoomFilesToProcess existing folder zfs wfs := by
  intro z hz
  unfold zoomFilesToProcess at hz ⊢
  by_cases hex : folder ∈ existingMissionIds existing
  · rw [if_pos hex]
    rw [if_pos (mission_mono store existing folder hex)] at hz
    obtain ⟨hzf, hcond⟩ := List.mem_filter.mp hz
    refine List.mem_filter.mpr ⟨hzf, ?_⟩
    dsimp only at hcond ⊢
    rcases hwl : wideLookup wfs (zoomIdentifier z) with _ | wf
    · simp only [hwl] at hcond
      exact absurd hcond (by simp)
    · simp only [hwl, decide_eq_true_eq] at hcond ⊢
      intro hmem
      exact hcond (pairs_mono store existing folder _ hmem)
  · rw [if_neg hex]
    by_cases hex1 : folder ∈ existingMissionIds (runPipeline store existing)
    · rw [if_pos hex1] at hz
      exact (List.mem_filter.mp hz).1
    · rw [if_neg hex1] at hz
      exact hz

theorem newRows_second_subset (store : Store) (existing : List Row) :
    ∀ r ∈ newRows store (runPipeline store existing),
      r ∈ newRows store existing := by
  intro r hr
  unfold newRows at hr ⊢
  obtain ⟨m, hm, hrm⟩ := List.mem_flatMap.mp hr
  refine List.mem_flatMap.mpr ⟨m, hm, ?_⟩
  unfold processMissionRows at hrm ⊢
  obtain ⟨z, hz, hpz⟩ := List.mem_filterMap.mp hrm
  exact List.mem_filterMap.mpr
    ⟨z, zoomFilesToProcess_mono store existing m.folder _ _ z hz, hpz⟩

theorem runPipeline_eq_nil (store : Store) (existing : List Row)
    (h : runPipeline store existing = []) : newRows store existing = [] := by
  unfold runPipeline at h
  by_cases hrows : (newRows store existing).isEmpty
  · exact List.isEmpty_iff.mp hrows
  · rw [if_neg hrows] at h
    by_cases hex : existing.isEmpty
    · rw [if_pos hex] at h
      exact h
    · rw [if_neg hex] at h
      exfalso
      rcases hee : existing with _ | ⟨e, es⟩
      · rw [hee, List.isEmpty_nil] at hex
        exact hex rfl
      · rw [hee, List.cons_append] at h
        unfold drop_duplicates dedupKeysAux at h
        rw [if_neg (List.not_mem_nil (rowKey e))] at h
        exact List.cons_ne_nil _ _ h

/-- C9.  A run never removes existing data: every `(mission_id, point_id,
wide_url)` key present in the existing points layer is still present in the
layer the run writes, because the existing frame precedes the new rows and
deduplication keeps the first occurrence of each key. -/
theorem points_pipeline_preserves_rows (store : Store) (existing : List Row) :
    ∀ k ∈ existing.map rowKey, k ∈ (runPipeline store existing).map rowKey :=
  keys_sub_runPipeline store existing

/-- C9 witness: an existing row's key survives a re-run over the store that
produced it. -/
theorem points_pipeline_preserves_rows_witness :
    rowKey rowEx ∈ (runPipeline storeEx [rowEx]).map rowKey :=
  points_pipeline_preserves_rows storeEx [rowEx] (rowKey rowEx) (by decide)

/-- C7.  The points pipeline is idempotent over an unchanged store: already
present `(wide_url, point_id)` pairs are skipped on the second pass and the
output is deduplicated on `(mission_id, point_id, wide_url)`, so a second run
adds zero new rows — every row of the second output was already in the
first. -/
theorem points_pipeline_idempotent (store : Store) (existing : List Row) :
    ∀ r ∈ runPipeline store (runPipeline store existing),
      r ∈ runPipeline store existing := by
  intro r hr
  set O1 := runPipeline store existing with hO1
  by_cases hnew2 : (newRows store O1).isEmpty
  · unfold runPipeline at hr
    rw [if_pos hnew2] at hr
    exact hr
  · unfold runPipeline at hr
    rw [if_neg hnew2] at hr
    by_cases hO1e : O1.isEmpty
    · exfalso
      have h1 : newRows store existing = [] := by
        apply runPipeline_eq_nil store existing
        rw [← hO1]
        exact List.isEmpty_iff.mp hO1e
      rw [List.isEmpty_iff] at hnew2
      obtain ⟨r2, hr2⟩ := List.exists_mem_of_ne_nil _ hnew2
      have hsub := newRows_second_subset store existing r2 (by rw [← hO1]; exact hr2)
      rw [h1] at hsub
      exact absurd hsub (List.not_mem_nil r2)
    · rw [if_neg hO1e] at hr
      apply dedup_append_subset O1 (newRows store O1) _ r hr
      intro r2 hr2
      rw [hO1]
      apply newRows_key_mem store existing
      apply newRows_second_subset store existing
      rw [← hO1]
      exact hr2

/-- C7 witness: for the one-pair store, the second run's output row was
already produced by the first run. -/
theorem points_pipeline_idempotent_witness :
    rowEx ∈ runPipeline storeEx [] :=
  points_pipeline_idempotent storeEx [] rowEx (by decide)

end Arbutus
